import Mathlib

/-!
Verification of the Task Planner bot (src/main.py) against its specification.

The embedding below translates the persistent data model (projects, tasks,
notifications), the deadline parsing of the add-task wizard, the reminder
dispatcher sweeps, and the callback handlers of the bot into executable Lean
definitions.  Dates are calendar dates; timestamps are seconds (as integers).
-/

namespace TaskPlanner

/-! ## Calendar dates -/

/-- A calendar date, as stored in the `deadline DATE NOT NULL` column. -/
structure Date where
  year : Nat
  month : Nat
  day : Nat
  deriving DecidableEq

/-- Gregorian leap-year test, as in Python's `datetime`. -/
def isLeap (y : Nat) : Bool :=
  y % 4 == 0 && (y % 100 != 0 || y % 400 == 0)

/-- Number of days in a month. -/
def daysInMonth (y m : Nat) : Nat :=
  if m = 2 then (if isLeap y then 29 else 28)
  else if m = 4 ∨ m = 6 ∨ m = 9 ∨ m = 11 then 30
  else 31

/-- Validity check performed by Python's `datetime.date` constructor. -/
def mkDate (y m d : Nat) : Option Date :=
  if 1 ≤ y ∧ y ≤ 9999 ∧ 1 ≤ m ∧ m ≤ 12 ∧ 1 ≤ d ∧ d ≤ daysInMonth y m then
    some ⟨y, m, d⟩
  else none

/-- Numeric value of a decimal digit character. -/
def digitVal (c : Char) : Nat := c.toNat - 48

/-- Day-of-month field of `strptime`: the pattern accepts `3[01]`, `[12]` then a
digit, `0[1-9]`, a single `[1-9]`, or a space followed by `[1-9]`. -/
def parseDay (s : String) : Option Nat :=
  match s.toList with
  | [c] => if '1' ≤ c ∧ c ≤ '9' then some (digitVal c) else none
  | [a, b] =>
    if a = ' ' then
      if '1' ≤ b ∧ b ≤ '9' then some (digitVal b) else none
    else if a.isDigit ∧ b.isDigit then
      let v := digitVal a * 10 + digitVal b
      if 1 ≤ v ∧ v ≤ 31 then some v else none
    else none
  | _ => none

/-- Month field of `strptime`: `1[0-2]`, `0[1-9]`, or a single `[1-9]`. -/
def parseMonth (s : String) : Option Nat :=
  match s.toList with
  | [c] => if '1' ≤ c ∧ c ≤ '9' then some (digitVal c) else none
  | [a, b] =>
    if a.isDigit ∧ b.isDigit then
      let v := digitVal a * 10 + digitVal b
      if 1 ≤ v ∧ v ≤ 12 then some v else none
    else none
  | _ => none

/-- Two-digit year field of `strptime` (`%y`): exactly two digits, values up to
68 mapped into the 2000s and the rest into the 1900s. -/
def parseYear2 (s : String) : Option Nat :=
  match s.toList with
  | [a, b] =>
    if a.isDigit ∧ b.isDigit then
      let v := digitVal a * 10 + digitVal b
      some (if v ≤ 68 then 2000 + v else 1900 + v)
    else none
  | _ => none

/-- Four-digit year field of `strptime` (`%Y`): exactly four digits. -/
def parseYear4 (s : String) : Option Nat :=
  match s.toList with
  | [a, b, c, d] =>
    if a.isDigit ∧ b.isDigit ∧ c.isDigit ∧ d.isDigit then
      some (digitVal a * 1000 + digitVal b * 100 + digitVal c * 10 + digitVal d)
    else none
  | _ => none

/-- Split a character list at every `'.'` (the literal separator of the date
formats), keeping empty pieces, as Python's regex-based `strptime` sees it. -/
def splitDotsList : List Char → List (List Char)
  | [] => [[]]
  | c :: rest =>
    let r := splitDotsList rest
    if c = '.' then [] :: r
    else
      match r with
      | [] => [[c]]
      | h :: t => (c :: h) :: t

/-- Split a string at every `'.'`. -/
def splitDots (s : String) : List String :=
  (splitDotsList s.data).map String.mk

/-- Python's `str.strip()`: remove leading and trailing whitespace. -/
def pyStrip (s : String) : String :=
  ⟨((s.data.dropWhile Char.isWhitespace).reverse.dropWhile Char.isWhitespace).reverse⟩

/-- `datetime.strptime(s, "%d.%m.%y").date()` when `twoDigitYear` is true and
`datetime.strptime(s, "%d.%m.%Y").date()` otherwise. -/
def strptimeDate (twoDigitYear : Bool) (s : String) : Option Date :=
  match splitDots s with
  | [ds, ms, ys] => do
    let d ← parseDay ds
    let m ← parseMonth ms
    let y ← (if twoDigitYear then parseYear2 ys else parseYear4 ys)
    mkDate y m d
  | _ => none

/-- The deadline validation loop of `process_task_deadline` (src/main.py):
formats `%d.%m.%y` then `%d.%m.%Y` are tried in order; the first success
wins, and if both fail the input is rejected. -/
def parse_deadline (s : String) : Option Date :=
  match strptimeDate true s with
  | some d => some d
  | none => strptimeDate false s

/-- Ordinal of a date within its year. -/
def dayOfYear (y m d : Nat) : Nat :=
  let lens := [31, if isLeap y then 29 else 28, 31, 30, 31, 30, 31, 31, 30, 31, 30]
  (lens.take (m - 1)).foldl (· + ·) 0 + d

/-- Day number of a date (days since the proleptic Gregorian epoch). -/
def Date.toDays (dt : Date) : Nat :=
  ((dt.year - 1) * 365 + (dt.year - 1) / 4 + (dt.year - 1) / 400)
    - (dt.year - 1) / 100 + dayOfYear dt.year dt.month dt.day

/-- Timestamp (in seconds) of
`datetime.combine(deadline, time(hour=9)) - timedelta(days=days_before)`,
the notification time computed by `create_notification`. -/
def notifTime (deadline : Date) (daysBefore : Nat) : Int :=
  ((deadline.toDays : Int) - (daysBefore : Int)) * 86400 + 9 * 3600

/-! ## Persistent data model (tables created by `create_tables`) -/

/-- A row of the `projects` table. -/
structure Project where
  id : Nat
  user_id : Nat
  name : String
  created_at : Int
  deriving DecidableEq

/-- A row of the `tasks` table.  `status` defaults to `"pending"`; the
`deadline` column is `NOT NULL`. -/
structure Task where
  id : Nat
  project_id : Nat
  title : String
  description : Option String
  deadline : Date
  status : String
  created_at : Int
  completed_at : Option Int
  updated_at : Int
  deriving DecidableEq

/-- A row of the `notifications` table. -/
structure Notification where
  id : Nat
  user_id : Nat
  task_id : Nat
  notification_type : String
  notification_time : Int
  is_sent : Bool
  created_at : Int
  deriving DecidableEq

/-- The database state: the three tables plus the `SERIAL` id counters. -/
structure DB where
  projects : List Project
  tasks : List Task
  notifications : List Notification
  nextProjectId : Nat
  nextTaskId : Nat
  nextNotifId : Nat
  deriving DecidableEq

/-! ## Conversation state (aiogram FSM states plus their stored data) -/

/-- Per-user conversation state: the aiogram FSM state together with the data
accumulated by `state.update_data` (`project_id`, `project_name`, `title`). -/
inductive SessionState where
  | idle
  | waitingForProjectName
  | waitingForTaskTitle (projectId : Nat) (projectName : String)
  | waitingForDeadline (projectId : Nat) (projectName : String) (title : String)
  deriving DecidableEq

/-- Outcome reported to the user by a wizard step. -/
inductive StepReply where
  | repromptEmptyName
  | repromptEmptyTitle
  | repromptBadDate
  | askDeadline
  | projectCreated (name : String)
  | taskCreated (title : String) (deadline : Date)
  | storeError
  deriving DecidableEq

/-! ## Notifications and dispatcher sweeps -/

/-- `create_notification(user_id, task_id, notification_type, days_before)`
(src/main.py): look up the task's deadline, compute the notification time,
skip the insert when an unsent notification of the same task and type exists
within 60 seconds of that time, and otherwise insert a new unsent row. -/
def create_notification (now : Int) (db : DB) (user_id task_id : Nat)
    (ntype : String) (daysBefore : Nat) : DB :=
  match db.tasks.find? (fun t => t.id == task_id) with
  | none => db
  | some task =>
    let ntime := notifTime task.deadline daysBefore
    match db.notifications.find? (fun n =>
        n.task_id == task_id && n.notification_type == ntype &&
        n.is_sent == false && decide ((ntime - n.notification_time).natAbs < 60)) with
    | some _ => db
    | none =>
      { db with
        notifications := db.notifications ++
          [⟨db.nextNotifId, user_id, task_id, ntype, ntime, false, now⟩],
        nextNotifId := db.nextNotifId + 1 }

/-- `check_overdue_tasks` (src/main.py): `UPDATE tasks SET status = 'overdue',
updated_at = CURRENT_TIMESTAMP WHERE deadline < CURRENT_DATE AND status NOT IN
('completed', 'overdue')`.  `today` is the current date as a day number. -/
def check_overdue_tasks (today : Nat) (now : Int) (db : DB) : DB :=
  { db with
    tasks := db.tasks.map (fun t =>
      if t.deadline.toDays < today ∧ t.status ≠ "completed" ∧ t.status ≠ "overdue" then
        { t with status := "overdue", updated_at := now }
      else t) }

/-- The batch selected by the dispatcher: notifications joined with their task
and project, with `is_sent = FALSE AND notification_time <= NOW()`, limited to
20 rows. -/
def dueBatch (now : Int) (db : DB) : List Notification :=
  (db.notifications.filter (fun n =>
    n.is_sent == false && decide (n.notification_time ≤ now) &&
    db.tasks.any (fun t =>
      t.id == n.task_id && db.projects.any (fun p => p.id == t.project_id)))).take 20

/-- Mark the notification with the given id as sent
(`UPDATE notifications SET is_sent = TRUE WHERE id = $1`). -/
def markSent (notifs : List Notification) (nid : Nat) : List Notification :=
  notifs.map (fun n => if n.id = nid then { n with is_sent := true } else n)

/-- `check_and_send_notifications` (src/main.py): run the overdue sweep, select
the due batch, then for each record attempt delivery and mark it sent only when
delivery succeeds; a failed delivery leaves the record untouched and the loop
continues with the next record.  `deliver` reports, per notification id,
whether `bot.send_message` succeeds. -/
def check_and_send_notifications (today : Nat) (now : Int) (deliver : Nat → Bool)
    (db : DB) : DB :=
  let db1 := check_overdue_tasks today now db
  let batch := dueBatch now db1
  { db1 with
    notifications := batch.foldl
      (fun acc n => if deliver n.id then markSent acc n.id else acc)
      db1.notifications }

/-! ## Callback handlers -/

/-- Owner-scoped project lookup used by the handlers
(`SELECT ... FROM projects WHERE id = $1 AND user_id = $2`). -/
def findProjectOwned (db : DB) (uid pid : Nat) : Option Project :=
  db.projects.find? (fun p => p.id == pid && p.user_id == uid)

/-- Owner-scoped task lookup used by the handlers (`SELECT t.* FROM tasks t
JOIN projects p ON t.project_id = p.id WHERE t.id = $1 AND p.user_id = $2`). -/
def findTaskOwned (db : DB) (uid tid : Nat) : Option Task :=
  db.tasks.find? (fun t =>
    t.id == tid && db.projects.any (fun p => p.id == t.project_id && p.user_id == uid))

/-- Reply produced by a callback handler. -/
inductive CbReply where
  | notFound
  | shownTasks
  | statusChanged (s : String)
  | projectDeleted (name : String)
  | askTaskTitle (projectName : String)
  | reminderSet
  deriving DecidableEq

/-- The status update of `set_task_status` (src/main.py): setting
`completed` also stamps `completed_at = NOW()`, any other status resets
`completed_at` to `NULL`; `updated_at` is always refreshed. -/
def set_task_status_update (now : Int) (db : DB) (tid : Nat) (ns : String) : DB :=
  { db with
    tasks := db.tasks.map (fun t =>
      if t.id = tid then
        if ns = "completed" then
          { t with status := ns, completed_at := some now, updated_at := now }
        else
          { t with status := ns, completed_at := none, updated_at := now }
      else t) }

/-- `set_task_status` callback handler: owner-scoped lookup, then the status
update; a missing or foreign task yields a not-found answer and no write. -/
def set_task_status (now : Int) (db : DB) (uid tid : Nat) (ns : String) :
    DB × CbReply :=
  match findTaskOwned db uid tid with
  | none => (db, .notFound)
  | some _ => (set_task_status_update now db tid ns, .statusChanged ns)

/-- Cascade delete of `delete_project` (src/main.py): the `DELETE FROM
projects WHERE id = $1` cascades to the project's tasks and, from there, to
their notifications. -/
def delete_project_cascade (db : DB) (pid : Nat) : DB :=
  { db with
    projects := db.projects.filter (fun p => p.id != pid),
    tasks := db.tasks.filter (fun t => t.project_id != pid),
    notifications := db.notifications.filter (fun n =>
      !(db.tasks.any (fun t => t.id == n.task_id && t.project_id == pid))) }

/-- A callback action carrying a project or task id, as encoded in the inline
keyboard payloads `tasks:`, `set_status:`, `delete:`, `add_task:`, `remind:`. -/
inductive CbAction where
  | showTasks (projectId : Nat)
  | setStatus (taskId : Nat) (newStatus : String)
  | deleteProject (projectId : Nat)
  | addTask (projectId : Nat)
  | remind (taskId : Nat) (daysBefore : Nat)
  deriving DecidableEq

/-- Whether the record targeted by a callback action exists and is owned by the
acting user — the guard each handler re-checks before doing anything else. -/
def targetOwned (db : DB) (uid : Nat) (a : CbAction) : Bool :=
  match a with
  | .showTasks pid => (findProjectOwned db uid pid).isSome
  | .setStatus tid _ => (findTaskOwned db uid tid).isSome
  | .deleteProject pid => (findProjectOwned db uid pid).isSome
  | .addTask pid => (findProjectOwned db uid pid).isSome
  | .remind tid _ => (findTaskOwned db uid tid).isSome

/-- The callback router: dispatches `tasks:`, `set_status:`, `delete:`,
`add_task:` and `remind:` payloads to their handlers (`show_tasks`,
`set_task_status`, `delete_project`, `start_add_task`, `set_reminder` in
src/main.py).  Every branch re-verifies ownership first and answers
"not found" without touching the database when the check fails. -/
def handle_callback (now : Int) (db : DB) (sess : SessionState) (uid : Nat)
    (a : CbAction) : DB × SessionState × CbReply :=
  match a with
  | .showTasks pid =>
    match findProjectOwned db uid pid with
    | none => (db, sess, .notFound)
    | some _ => (db, sess, .shownTasks)
  | .setStatus tid ns =>
    match set_task_status now db uid tid ns with
    | (db', r) => (db', sess, r)
  | .deleteProject pid =>
    match findProjectOwned db uid pid with
    | none => (db, sess, .notFound)
    | some p => (delete_project_cascade db pid, sess, .projectDeleted p.name)
  | .addTask pid =>
    match findProjectOwned db uid pid with
    | none => (db, sess, .notFound)
    | some p => (db, .waitingForTaskTitle pid p.name, .askTaskTitle p.name)
  | .remind tid daysBefore =>
    match findTaskOwned db uid tid with
    | none => (db, sess, .notFound)
    | some _ =>
      let ntype :=
        if daysBefore > 0 then "reminder_" ++ toString daysBefore ++ "_days"
        else "deadline_today"
      (create_notification now db uid tid ntype daysBefore, sess, .reminderSet)

/-! ## Wizard steps -/

/-- `process_project_name` (src/main.py): empty (post-strip) input re-prompts
without leaving the state; otherwise the insert is attempted — it fails when
the store fails or the name exceeds the `VARCHAR(255)` column — and the
session is cleared to idle whether the insert succeeded or not. -/
def process_project_name (insertFails : Bool) (now : Int) (db : DB) (uid : Nat)
    (text : String) : DB × SessionState × StepReply :=
  let name := (pyStrip text)
  if name = "" then (db, .waitingForProjectName, .repromptEmptyName)
  else if insertFails ∨ name.length > 255 then (db, .idle, .storeError)
  else
    ({ db with
        projects := db.projects ++ [⟨db.nextProjectId, uid, name, now⟩],
        nextProjectId := db.nextProjectId + 1 },
      .idle, .projectCreated name)

/-- `process_task_title` (src/main.py): empty (post-strip) input re-prompts;
any other input — of any length — is stored as the title and the wizard
advances to the deadline question.  The handler performs no store access. -/
def process_task_title (db : DB) (pid : Nat) (pname : String) (text : String) :
    DB × SessionState × StepReply :=
  let title := (pyStrip text)
  if title = "" then (db, .waitingForTaskTitle pid pname, .repromptEmptyTitle)
  else (db, .waitingForDeadline pid pname title, .askDeadline)

/-- The notification kinds scheduled on task creation
(`notification_types` in `process_task_deadline`, src/main.py). -/
def notification_types : List (String × Nat) :=
  [("days_before_3", 3), ("days_before_2", 2), ("days_before_1", 1),
   ("deadline_today", 0)]

/-- `process_task_deadline` (src/main.py): parse the deadline (re-prompting in
place on failure), then commit.  The task `INSERT` runs inside an open
transaction on one pool connection; it fails when the store fails, the title
exceeds `VARCHAR(255)` or the project row is gone, in which case the
transaction aborts, a generic error is reported and nothing is written.  Each
`create_notification` call acquires a *different* pool connection, so under
PostgreSQL's default READ COMMITTED isolation it sees only the committed
state, in which the new task row does not yet exist; any write it performs
commits immediately.  The fold therefore threads the committed state `db`,
not the in-transaction state, and the transaction's own commit then adds the
task row on top.  A failure inside `create_notification` is caught there and
swallowed, which `notifInsertFails` models by skipping that call.  The
session is cleared to idle on every path that gets past parsing. -/
def process_task_deadline (taskInsertFails : Bool) (notifInsertFails : String → Bool)
    (now : Int) (db : DB) (uid pid : Nat) (pname title : String) (text : String) :
    DB × SessionState × StepReply :=
  match parse_deadline (pyStrip text) with
  | none => (db, .waitingForDeadline pid pname title, .repromptBadDate)
  | some d =>
    if taskInsertFails ∨ title.length > 255 ∨ ¬ db.projects.any (fun p => p.id == pid) then
      (db, .idle, .storeError)
    else
      let task_id := db.nextTaskId
      let db2 := notification_types.foldl
        (fun acc kd =>
          if notifInsertFails kd.1 then acc
          else create_notification now acc uid task_id kd.1 kd.2)
        db
      let db3 : DB :=
        { db2 with
          tasks := db2.tasks ++ [⟨task_id, pid, title, none, d, "pending", now, none, now⟩],
          nextTaskId := task_id + 1 }
      (db3, .idle, .taskCreated title d)

/-! ## Concrete sample states used to evaluate the development -/

/-- A store holding one project (id 1) owned by user 7 and nothing else. -/
def sampleProjectDB : DB := ⟨[⟨1, 7, "P", 0⟩], [], [], 2, 1, 1⟩

/-- A store holding one project (id 1, user 7) and one pending task (id 1)
with deadline 2026-02-15. -/
def sampleTaskDB : DB :=
  ⟨[⟨1, 7, "P", 0⟩], [⟨1, 1, "T", none, ⟨2026, 2, 15⟩, "pending", 0, none, 0⟩],
   [], 2, 2, 1⟩

/-- A store with one project, one task and two unsent due notifications. -/
def sampleNotifDB : DB :=
  ⟨[⟨1, 7, "P", 0⟩], [⟨1, 1, "T", none, ⟨2026, 2, 15⟩, "pending", 0, none, 0⟩],
   [⟨1, 7, 1, "deadline_today", 50, false, 0⟩,
    ⟨2, 7, 1, "days_before_1", 60, false, 0⟩], 2, 2, 3⟩

/-- A 300-character input, longer than the `VARCHAR(255)` columns allow. -/
def longTitle : String := String.mk (List.replicate 300 'a')

/-- Delivery oracle that succeeds exactly for notification id 1. -/
def deliverFirst : Nat → Bool := fun i => i == 1

/-- Notification-insert oracle under which every insert succeeds. -/
def allNotifOk : String → Bool := fun _ => false

/-- Notification-insert oracle under which exactly the `days_before_2`
insert fails. -/
def failDaysBefore2 : String → Bool := fun s => s == "days_before_2"

/-- The task of `sampleTaskDB` as it looks after being completed at time 99. -/
def completedSampleTask : Task :=
  ⟨1, 1, "T", none, ⟨2026, 2, 15⟩, "completed", 0, some 99, 99⟩

/-! ## Helper lemmas -/

/-- `find?` skips a prefix on which the predicate fails everywhere. -/
theorem find?_append_of_none {α : Type} {p : α → Bool} {l₁ : List α} (l₂ : List α)
    (h : l₁.find? p = none) : (l₁ ++ l₂).find? p = l₂.find? p := by
  induction l₁ with
  | nil => simp
  | cons a t ih =>
    rw [List.find?_eq_none] at h
    have ha : p a = false := by
      have := h a (by simp)
      simp_all
    have ht : t.find? p = none := by
      rw [List.find?_eq_none]
      intro x hx
      exact h x (by simp [hx])
    simpa [List.find?_cons, ha] using ih ht

/-! ## C3: the overdue-reclassification sweep -/

/-- C3: the overdue sweep sets `status = "overdue"` for exactly the tasks whose
deadline is strictly before today and whose status is neither `completed` nor
`overdue`; every other task keeps its status. -/
theorem c3_overdue_sweep_exact (today : Nat) (now : Int) (db : DB) : ∀ i : Nat,
    ((check_overdue_tasks today now db).tasks[i]?).map Task.status
      = (db.tasks[i]?).map (fun t =>
          if t.deadline.toDays < today ∧ t.status ≠ "completed" ∧ t.status ≠ "overdue"
          then "overdue" else t.status) := by
  intro i
  simp only [check_overdue_tasks, List.getElem?_map]
  cases h : db.tasks[i]? with
  | none => simp
  | some t =>
    simp only [Option.map_some']
    split <;> simp

/-! ## C4: idempotence of the overdue sweep -/

/-- C4: with the current date held fixed, running the overdue sweep twice
yields exactly the same store as running it once. -/
theorem c4_overdue_sweep_idempotent (today : Nat) (now1 now2 : Int) (db : DB) :
    check_overdue_tasks today now2 (check_overdue_tasks today now1 db)
      = check_overdue_tasks today now1 db := by
  cases db with
  | mk ps ts ns i1 i2 i3 =>
    simp only [check_overdue_tasks, List.map_map, DB.mk.injEq, true_and, and_true]
    apply List.map_congr_left
    intro t _
    by_cases hc : t.deadline.toDays < today ∧ t.status ≠ "completed" ∧ t.status ≠ "overdue"
    · simp [hc]
    · simp [hc]

/-! ## C6: ownership checks in the callback router -/

/-- C6: for every callback action carrying a project or task id, if the target
record is missing or owned by another user, the handler answers "not found",
leaves the store untouched and leaves the conversation state untouched. -/
theorem c6_ownership_guard (now : Int) (db : DB) (sess : SessionState) (uid : Nat)
    (a : CbAction) (h : targetOwned db uid a = false) :
    handle_callback now db sess uid a = (db, sess, CbReply.notFound) := by
  cases a with
  | showTasks pid =>
    cases hf : findProjectOwned db uid pid with
    | none => simp [handle_callback, hf]
    | some p => simp [targetOwned, hf] at h
  | setStatus tid ns =>
    cases hf : findTaskOwned db uid tid with
    | none => simp [handle_callback, set_task_status, hf]
    | some t => simp [targetOwned, hf] at h
  | deleteProject pid =>
    cases hf : findProjectOwned db uid pid with
    | none => simp [handle_callback, hf]
    | some p => simp [targetOwned, hf] at h
  | addTask pid =>
    cases hf : findProjectOwned db uid pid with
    | none => simp [handle_callback, hf]
    | some p => simp [targetOwned, hf] at h
  | remind tid k =>
    cases hf : findTaskOwned db uid tid with
    | none => simp [handle_callback, hf]
    | some t => simp [targetOwned, hf] at h

/-- C6 witness: user 2 trying to delete project 1, which belongs to user 7,
gets "not found" and the store is unchanged. -/
theorem c6_ownership_guard_witness :
    targetOwned sampleTaskDB 2 (CbAction.deleteProject 1) = false ∧
    handle_callback 0 sampleTaskDB SessionState.idle 2 (CbAction.deleteProject 1)
      = (sampleTaskDB, SessionState.idle, CbReply.notFound) :=
  ⟨by decide,
   c6_ownership_guard 0 sampleTaskDB SessionState.idle 2
     (CbAction.deleteProject 1) (by decide)⟩

/-! ## C10: `completed_at` tracks the `completed` status -/

/-- C10: after a set-status operation on an owned task, the updated task's
`completed_at` is the current time when the new status is `completed` and
`NULL` otherwise, so it is non-null exactly when the status is `completed`. -/
theorem c10_completed_at_iff_completed (now : Int) (db : DB) (uid tid : Nat)
    (ns : String) (t' : Task)
    (howned : (findTaskOwned db uid tid).isSome = true)
    (ht' : t' ∈ (set_task_status now db uid tid ns).1.tasks)
    (hid : t'.id = tid) :
    t'.status = ns ∧
    t'.completed_at = (if ns = "completed" then some now else none) ∧
    (t'.completed_at.isSome ↔ t'.status = "completed") := by
  obtain ⟨task, htask⟩ := Option.isSome_iff_exists.mp howned
  simp only [set_task_status, htask, set_task_status_update, List.mem_map] at ht'
  obtain ⟨t, _, rfl⟩ := ht'
  by_cases h1 : t.id = tid
  · by_cases h2 : ns = "completed" <;> simp [h1, h2]
  · simp [h1] at hid

/-- C10 witness: completing task 1 of `sampleTaskDB` stamps `completed_at`. -/
theorem c10_completed_at_iff_completed_witness :
    (findTaskOwned sampleTaskDB 7 1).isSome = true ∧
    completedSampleTask ∈ (set_task_status 99 sampleTaskDB 7 1 "completed").1.tasks ∧
    (completedSampleTask.status = "completed" ∧
     completedSampleTask.completed_at
       = (if ("completed" : String) = "completed" then some 99 else none) ∧
     (completedSampleTask.completed_at.isSome ↔
       completedSampleTask.status = "completed")) :=
  ⟨by decide, by decide,
   c10_completed_at_iff_completed 99 sampleTaskDB 7 1 "completed"
     completedSampleTask (by decide) (by decide) (by decide)⟩

/-! ## C1: "no deadline" keywords -/

/-- C1 counterexample: the deadline step has no "no deadline" keywords.  The
inputs "no", "none" and "NONE" are all treated as unparseable dates: the
wizard re-prompts, stays in the deadline state and writes nothing, instead of
committing a task without a deadline and returning to idle. -/
theorem c1_keyword_input_is_reprompted :
    process_task_deadline false allNotifOk 0 sampleTaskDB 7 1 "P" "T" "no"
      = (sampleTaskDB, SessionState.waitingForDeadline 1 "P" "T",
         StepReply.repromptBadDate) ∧
    process_task_deadline false allNotifOk 0 sampleTaskDB 7 1 "P" "T" "none"
      = (sampleTaskDB, SessionState.waitingForDeadline 1 "P" "T",
         StepReply.repromptBadDate) ∧
    process_task_deadline false allNotifOk 0 sampleTaskDB 7 1 "P" "T" "NONE"
      = (sampleTaskDB, SessionState.waitingForDeadline 1 "P" "T",
         StepReply.repromptBadDate) := by
  refine ⟨?_, ?_, ?_⟩ <;> decide

/-- C1 amended: the deadline step recognises no keywords at all — "no",
"none" and "skip" (any casing) fail date parsing like every other non-date
input, and every input whose parse fails leaves the store and the wizard
state unchanged and re-prompts; a deadline can never be null
(`deadline DATE NOT NULL`). -/
theorem c1_no_deadline_keywords_absent :
    (parse_deadline "no" = none ∧ parse_deadline "none" = none ∧
     parse_deadline "skip" = none ∧ parse_deadline "NO" = none ∧
     parse_deadline "None" = none ∧ parse_deadline "SKIP" = none) ∧
    ∀ (tf : Bool) (nf : String → Bool) (now : Int) (db : DB) (uid pid : Nat)
      (pname title text : String),
      parse_deadline (pyStrip text) = none →
      process_task_deadline tf nf now db uid pid pname title text
        = (db, SessionState.waitingForDeadline pid pname title,
           StepReply.repromptBadDate) := by
  refine ⟨by decide, ?_⟩
  intro tf nf now db uid pid pname title text h
  simp [process_task_deadline, h]

/-- C1 witness: the keyword "skip" re-prompts and changes nothing. -/
theorem c1_no_deadline_keywords_absent_witness :
    process_task_deadline true failDaysBefore2 5 sampleProjectDB 9 1 "P" "X" "skip"
      = (sampleProjectDB, SessionState.waitingForDeadline 1 "P" "X",
         StepReply.repromptBadDate) :=
  c1_no_deadline_keywords_absent.2 true failDaysBefore2 5 sampleProjectDB 9 1
    "P" "X" "skip" (by decide)

/-! ## C8: length caps in the wizard steps -/

set_option maxRecDepth 8000 in
/-- C8 counterexample: a 300-character task title — longer than the 255
character column cap — does not re-prompt: the wizard stores it and advances
to the deadline step. -/
theorem c8_overlength_title_advances :
    process_task_title sampleProjectDB 1 "P" longTitle
      = (sampleProjectDB, SessionState.waitingForDeadline 1 "P" longTitle,
         StepReply.askDeadline) := by
  decide

/-- C8 amended: the wizard steps check only for emptiness, not length.  Every
non-empty title, however long, advances the title step without any store
write; an over-length project name is not re-prompted either — it reaches the
store insert, which fails on the `VARCHAR(255)` column, producing the generic
failure reply and resetting the session to idle. -/
theorem c8_no_length_cap_check :
    (∀ (db : DB) (pid : Nat) (pname text : String), (pyStrip text) ≠ "" →
      process_task_title db pid pname text
        = (db, SessionState.waitingForDeadline pid pname (pyStrip text),
           StepReply.askDeadline)) ∧
    (∀ (insertFails : Bool) (now : Int) (db : DB) (uid : Nat) (text : String),
      255 < (pyStrip text).length →
      process_project_name insertFails now db uid text
        = (db, SessionState.idle, StepReply.storeError)) := by
  constructor
  · intro db pid pname text h
    simp [process_task_title, h]
  · intro insertFails now db uid text h
    have hne : (pyStrip text) ≠ "" := by
      intro he
      rw [he] at h
      simp at h
    simp [process_project_name, hne]
    omega

set_option maxRecDepth 8000 in
/-- C8 witness: a 300-character input exercises both conjuncts. -/
theorem c8_no_length_cap_check_witness :
    process_task_title sampleTaskDB 1 "P" longTitle
      = (sampleTaskDB, SessionState.waitingForDeadline 1 "P" (pyStrip longTitle),
         StepReply.askDeadline) ∧
    process_project_name false 0 sampleTaskDB 7 longTitle
      = (sampleTaskDB, SessionState.idle, StepReply.storeError) :=
  ⟨c8_no_length_cap_check.1 sampleTaskDB 1 "P" longTitle (by decide),
   c8_no_length_cap_check.2 false 0 sampleTaskDB 7 longTitle (by decide)⟩

/-! ## C9: notification deduplication -/

/-- C9 counterexample: `create_notification` does check for existing
equivalent rows.  Adding the same reminder kind twice for task 1 of
`sampleTaskDB` inserts only one row — the second call is a no-op — so
repeated identical adds cannot produce duplicate rows. -/
theorem c9_repeated_add_inserts_once :
    (create_notification 0 sampleTaskDB 7 1 "days_before_3" 3).notifications.length
      = 1 ∧
    (create_notification 5 (create_notification 0 sampleTaskDB 7 1 "days_before_3" 3)
        7 1 "days_before_3" 3).notifications.length = 1 := by
  refine ⟨?_, ?_⟩ <;> decide

/-- C9 amended: `create_notification` skips the insert whenever an unsent
notification with the same task, the same kind and a notification time within
60 seconds already exists; in particular, calling it twice with identical
arguments (same task, kind and unchanged deadline) leaves the store exactly
as after the first call.  Duplicates remain possible only when the computed
times differ by at least a minute (e.g. after a deadline change) or the
earlier row was already sent. -/
theorem c9_create_notification_idempotent (now1 now2 : Int) (db : DB)
    (uid tid : Nat) (ty : String) (k : Nat) :
    create_notification now2 (create_notification now1 db uid tid ty k) uid tid ty k
      = create_notification now1 db uid tid ty k := by
  unfold create_notification
  cases hf : db.tasks.find? (fun t => t.id == tid) with
  | none => simp [hf]
  | some task =>
    cases hd : db.notifications.find? (fun n =>
        n.task_id == tid && n.notification_type == ty && n.is_sent == false &&
        decide ((notifTime task.deadline k - n.notification_time).natAbs < 60)) with
    | some n => simp only [hf, hd]
    | none =>
      simp only [hf, hd]
      rw [find?_append_of_none _ hd]
      simp

/-! ## Commit-time visibility of the fresh task row -/

/-- `create_notification` is a no-op when no task with the given id is
visible (`SELECT deadline FROM tasks WHERE id = $1` returns nothing). -/
theorem create_notification_no_task (now : Int) (db : DB) (uid tid : Nat)
    (ty : String) (k : Nat)
    (h : db.tasks.find? (fun t => t.id == tid) = none) :
    create_notification now db uid tid ty k = db := by
  unfold create_notification
  simp [h]

/-- During the add-task commit every `create_notification` call sees only the
committed state, where the fresh `SERIAL` task id matches no row, so the
whole scheduling loop writes nothing — whatever the failure oracle says. -/
theorem notifications_fold_noop (now : Int) (uid tid : Nat) (nf : String → Bool)
    (l : List (String × Nat)) (dbx : DB)
    (h : dbx.tasks.find? (fun t => t.id == tid) = none) :
    l.foldl
      (fun acc kd => if nf kd.1 then acc
        else create_notification now acc uid tid kd.1 kd.2) dbx = dbx := by
  induction l with
  | nil => rfl
  | cons kd rest ih =>
    rw [List.foldl_cons]
    by_cases hk : nf kd.1 = true
    · rw [if_pos hk]
      exact ih
    · rw [if_neg hk, create_notification_no_task now dbx uid tid kd.1 kd.2 h]
      exact ih

/-! ## C7: failure semantics of the wizard commits -/

/-- C7: a commit-write failure is atomic and user-visible: a failing project
or task row insert produces the generic failure reply, resets the session to
idle and writes nothing; and a swallowed failure inside the notification
scheduling changes nothing — the commit's outcome is identical to the
failure-free run (the scheduling writes no rows either way, because the
uncommitted task row is invisible to `create_notification`). -/
theorem c7_commit_failure_atomic :
    (∀ (now : Int) (db : DB) (uid : Nat) (text : String), (pyStrip text) ≠ "" →
      process_project_name true now db uid text
        = (db, SessionState.idle, StepReply.storeError)) ∧
    (∀ (nf : String → Bool) (now : Int) (db : DB) (uid pid : Nat)
       (pname title text : String) (d : Date),
      parse_deadline (pyStrip text) = some d →
      process_task_deadline true nf now db uid pid pname title text
        = (db, SessionState.idle, StepReply.storeError)) ∧
    (∀ (nf : String → Bool) (now : Int) (db : DB) (uid pid : Nat)
       (pname title text : String),
      (∀ t ∈ db.tasks, t.id ≠ db.nextTaskId) →
      process_task_deadline false nf now db uid pid pname title text
        = process_task_deadline false allNotifOk now db uid pid pname title text) := by
  refine ⟨?_, ?_, ?_⟩
  · intro now db uid text h
    simp [process_project_name, h]
  · intro nf now db uid pid pname title text d h
    simp [process_task_deadline, h]
  · intro nf now db uid pid pname title text hT
    have hfind : db.tasks.find? (fun t => t.id == db.nextTaskId) = none := by
      rw [List.find?_eq_none]
      intro t ht
      simpa using hT t ht
    unfold process_task_deadline
    cases hp : parse_deadline (pyStrip text) with
    | none => rfl
    | some d =>
      dsimp only
      by_cases hc : false = true ∨ title.length > 255 ∨
          ¬ (db.projects.any fun p => p.id == pid) = true
      · rw [if_pos hc, if_pos hc]
      · rw [if_neg hc, if_neg hc,
          notifications_fold_noop now uid db.nextTaskId nf notification_types db hfind,
          notifications_fold_noop now uid db.nextTaskId allNotifOk notification_types db hfind]

/-- C7 witness: both insert-failure paths and the irrelevance of a swallowed
notification failure, at concrete inputs. -/
theorem c7_commit_failure_atomic_witness :
    process_project_name true 3 sampleTaskDB 7 "Website Redesign"
      = (sampleTaskDB, SessionState.idle, StepReply.storeError) ∧
    process_task_deadline true allNotifOk 3 sampleTaskDB 7 1 "P" "W" "05.02.26"
      = (sampleTaskDB, SessionState.idle, StepReply.storeError) ∧
    process_task_deadline false failDaysBefore2 0 sampleTaskDB 7 1 "P" "W" "05.02.26"
      = process_task_deadline false allNotifOk 0 sampleTaskDB 7 1 "P" "W" "05.02.26" :=
  ⟨c7_commit_failure_atomic.1 3 sampleTaskDB 7 "Website Redesign" (by decide),
   c7_commit_failure_atomic.2.1 allNotifOk 3 sampleTaskDB 7 1 "P" "W"
     "05.02.26" ⟨2026, 2, 5⟩ (by decide),
   c7_commit_failure_atomic.2.2 failDaysBefore2 0 sampleTaskDB 7 1 "P" "W"
     "05.02.26" (by decide)⟩

/-! ## C2: rows created by a successful add-task commit -/

/-- C2 counterexample: a successful add-task commit with deadline
"15.02.2026" creates one task row but zero notification rows — not three.
The scheduling calls run on separate pool connections and cannot see the
uncommitted task row, so every one of them aborts at the task lookup, while
the user is still told the reminders were installed. -/
theorem c2_commit_creates_zero_not_three :
    (process_task_deadline false allNotifOk 0 sampleProjectDB 7 1 "P"
        "Draft wireframes" "15.02.2026").1.tasks.length = 1 ∧
    (process_task_deadline false allNotifOk 0 sampleProjectDB 7 1 "P"
        "Draft wireframes" "15.02.2026").1.notifications.length = 0 ∧
    (process_task_deadline false allNotifOk 0 sampleProjectDB 7 1 "P"
        "Draft wireframes" "15.02.2026").1.notifications.length ≠ 3 := by
  refine ⟨?_, ?_, ?_⟩ <;> decide

/-- C2 amended: every successful add-task commit with a valid deadline string
creates exactly one task row carrying that deadline with status `pending`,
returns the session to idle — and creates no notification rows at all: the
four scheduling calls cannot see the uncommitted task row from their separate
connections and return without inserting, whatever the failure oracle says. -/
theorem c2_commit_task_row_only (now : Int) (db : DB) (uid pid : Nat)
    (pname title text : String) (d : Date) (nf : String → Bool)
    (hparse : parse_deadline (pyStrip text) = some d)
    (htitle : title.length ≤ 255)
    (hproj : db.projects.any (fun p => p.id == pid) = true)
    (hT : ∀ t ∈ db.tasks, t.id ≠ db.nextTaskId) :
    process_task_deadline false nf now db uid pid pname title text
      = ({ db with
            tasks := db.tasks ++
              [⟨db.nextTaskId, pid, title, none, d, "pending", now, none, now⟩],
            nextTaskId := db.nextTaskId + 1 },
          SessionState.idle, StepReply.taskCreated title d) := by
  have hfind : db.tasks.find? (fun t => t.id == db.nextTaskId) = none := by
    rw [List.find?_eq_none]
    intro t ht
    simpa using hT t ht
  have hcond : ¬ (false = true ∨ title.length > 255 ∨
      ¬ (db.projects.any fun p => p.id == pid) = true) := by
    simp [hproj]
    omega
  unfold process_task_deadline
  simp only [hparse]
  rw [if_neg hcond]
  rw [notifications_fold_noop now uid db.nextTaskId nf notification_types db hfind]

/-- C2 witness: the commit evaluated on the concrete sample store. -/
theorem c2_commit_task_row_only_witness :
    process_task_deadline false allNotifOk 0 sampleProjectDB 7 1 "P"
        "Draft wireframes" "15.02.2026"
      = ({ projects := [⟨1, 7, "P", 0⟩],
           tasks := [⟨1, 1, "Draft wireframes", none, ⟨2026, 2, 15⟩, "pending", 0, none, 0⟩],
           notifications := [],
           nextProjectId := 2, nextTaskId := 2, nextNotifId := 1 },
         SessionState.idle, StepReply.taskCreated "Draft wireframes" ⟨2026, 2, 15⟩) :=
  c2_commit_task_row_only 0 sampleProjectDB 7 1 "P" "Draft wireframes" "15.02.2026"
    ⟨2026, 2, 15⟩ allNotifOk (by decide) (by decide) (by decide) (by decide)

/-! ## C5: the notification delivery sweep -/

/-- The dispatcher's batch loop, described by one pass over the table: a
notification ends up marked sent exactly when some batch member with its id
was delivered. -/
theorem foldl_markSent_eq (deliver : Nat → Bool) (batch : List Notification) :
    ∀ notifs : List Notification,
    batch.foldl (fun acc n => if deliver n.id then markSent acc n.id else acc) notifs
      = notifs.map (fun n =>
          if batch.any (fun b => b.id == n.id && deliver b.id) then
            { n with is_sent := true } else n) := by
  induction batch with
  | nil =>
    intro notifs
    simp
  | cons b bs ih =>
    intro notifs
    rw [List.foldl_cons]
    by_cases hb : deliver b.id = true
    · rw [if_pos hb, ih (markSent notifs b.id)]
      unfold markSent
      rw [List.map_map]
      apply List.map_congr_left
      intro n _
      by_cases hid : n.id = b.id
      · have hbid : (b.id == n.id) = true := by simp [hid]
        simp [Function.comp, hid, hb, hbid, List.any_cons, ite_self]
      · have hbid : (b.id == n.id) = false := by
          simp only [beq_eq_false_iff_ne]
          exact fun h => hid h.symm
        simp [Function.comp, hid, hbid, List.any_cons]
    · have hbf : deliver b.id = false := by
        simpa using hb
      rw [if_neg hb, ih notifs]
      apply List.map_congr_left
      intro n _
      simp [List.any_cons, hbf]

/-- C5: each delivery sweep first reclassifies overdue tasks, then selects at
most 20 due unsent notifications; a selected notification is marked sent
exactly when its delivery succeeds, a failed delivery leaves its row unsent
for a later sweep, and one failure does not stop the rest of the batch. -/
theorem c5_delivery_marks_only_successes (today : Nat) (now : Int)
    (deliver : Nat → Bool) (db : DB)
    (hnd : (db.notifications.map Notification.id).Nodup) (i : Nat) :
    (dueBatch now (check_overdue_tasks today now db)).length ≤ 20 ∧
    ((check_and_send_notifications today now deliver db).notifications[i]?)
      = (db.notifications[i]?).map (fun n =>
          if n ∈ dueBatch now (check_overdue_tasks today now db) ∧ deliver n.id = true
          then { n with is_sent := true } else n) := by
  constructor
  · simp only [dueBatch, List.length_take]
    exact Nat.min_le_left _ _
  · have hno : (check_overdue_tasks today now db).notifications = db.notifications := rfl
    have hsub : ∀ b ∈ dueBatch now (check_overdue_tasks today now db),
        b ∈ db.notifications := by
      intro b hb
      simp only [dueBatch] at hb
      have hf := List.take_subset _ _ hb
      exact (List.mem_filter.mp hf).1
    simp only [check_and_send_notifications]
    rw [foldl_markSent_eq, hno, List.getElem?_map]
    cases hni : db.notifications[i]? with
    | none => simp
    | some n =>
      have hn : n ∈ db.notifications := List.getElem?_mem hni
      simp only [Option.map_some']
      have key : (dueBatch now (check_overdue_tasks today now db)).any
            (fun b => b.id == n.id && deliver b.id) = true
          ↔ (n ∈ dueBatch now (check_overdue_tasks today now db) ∧
             deliver n.id = true) := by
        constructor
        · intro h
          obtain ⟨b, hbmem, hbp⟩ := List.any_eq_true.mp h
          obtain ⟨hbid, hbdel⟩ := Bool.and_eq_true_iff.mp hbp
          have hbeq : b.id = n.id := by simpa using hbid
          have hbn : b = n :=
            List.inj_on_of_nodup_map hnd (hsub b hbmem) hn hbeq
          subst hbn
          exact ⟨hbmem, hbdel⟩
        · rintro ⟨hm, hd⟩
          rw [List.any_eq_true]
          exact ⟨n, hm, by simp [hd]⟩
      by_cases hcond : n ∈ dueBatch now (check_overdue_tasks today now db) ∧
          deliver n.id = true
      · have hany := key.mpr hcond
        rw [hany, if_pos hcond]
        simp
      · have hany : (dueBatch now (check_overdue_tasks today now db)).any
            (fun b => b.id == n.id && deliver b.id) = false := by
          have hne := fun hh => hcond (key.mp hh)
          simpa using hne
        rw [hany, if_neg hcond]
        simp

/-- C5 witness: on the concrete store, the sweep marks the delivered
notification (id 1) sent and leaves everything else governed by the batch
membership test. -/
theorem c5_delivery_marks_only_successes_witness :
    (dueBatch 100 (check_overdue_tasks 0 100 sampleNotifDB)).length ≤ 20 ∧
    ((check_and_send_notifications 0 100 deliverFirst sampleNotifDB).notifications[0]?)
      = (sampleNotifDB.notifications[0]?).map (fun n =>
          if n ∈ dueBatch 100 (check_overdue_tasks 0 100 sampleNotifDB) ∧
              deliverFirst n.id = true
          then { n with is_sent := true } else n) :=
  c5_delivery_marks_only_successes 0 100 deliverFirst sampleNotifDB (by decide) 0

end TaskPlanner
